import Mathlib

/-!
Shallow embedding of the Qobuz integration of the Clementine music player
(src/internet/qobuzservice.{h,cpp}, src/internet/qobuzurlhandler.cpp,
src/globalsearch/qobuzsearchprovider.cpp), together with theorems settling
the specification claims about it.

Qt container and variant types are modelled by plain Lean data:
`QVariant` mirrors the QVariant values produced by the QJson parser, with
the conversion functions (`toMap`, `toBool`, ...) following the documented
Qt semantics for exactly the cases the code exercises; `QMap` becomes an
association list; `QSet` a list of distinct elements.  Machine integers
stay `Int`/`Nat`: none of the modelled code relies on overflow.
-/

namespace Qobuz

/-- Model of Qt `QVariant` restricted to the shapes the QJson parser
produces: null/invalid, booleans, integers, strings, lists and maps. -/
inductive QVariant where
  | null : QVariant
  | bool (b : Bool) : QVariant
  | int (n : Int) : QVariant
  | str (s : String) : QVariant
  | list (xs : List QVariant) : QVariant
  | map (m : List (String × QVariant)) : QVariant
deriving Inhabited

/-- A `QVariantMap` is a `QMap<QString, QVariant>`, modelled as an
association list (key order is irrelevant to every lookup the code does). -/
abbrev QVariantMap := List (String × QVariant)

/-- Embeds `QMap::value(key)` / const `operator[]`: the stored value, or a
default-constructed (invalid) `QVariant` when the key is absent. -/
def qget (m : QVariantMap) (k : String) : QVariant :=
  (m.lookup k).getD QVariant.null

namespace QVariant

/-- Embeds `QVariant::toMap`. -/
def asMap : QVariant → QVariantMap
  | map m => m
  | _ => []

/-- Embeds `QVariant::toList`. -/
def asList : QVariant → List QVariant
  | list xs => xs
  | _ => []

/-- Embeds `QVariant::toString`: strings verbatim, numbers printed in base 10,
booleans as "true"/"false", everything else the empty string. -/
def asString : QVariant → String
  | str s => s
  | int n => toString n
  | bool b => if b then "true" else "false"
  | _ => ""

/-- Embeds `QVariant::toBool`: a string converts to true unless it is empty,
"0" or (case-insensitively) "false"; an integer is true iff nonzero. -/
def asBool : QVariant → Bool
  | bool b => b
  | int n => n != 0
  | str s => !(s = "" || s = "0" || s.toLower = "false")
  | _ => false

/-- Embeds `QVariant::toInt` (conversion failure yields 0). -/
def asInt : QVariant → Int
  | int n => n
  | bool b => if b then 1 else 0
  | str s => (s.toInt?).getD 0
  | _ => 0

/-- Embeds `QVariant::toULongLong` (conversion failure yields 0; a negative
integer wraps modulo 2^64 as the unsigned cast does). -/
def asULongLong : QVariant → Nat
  | int n => (n % (2 ^ 64 : Int)).toNat
  | bool b => if b then 1 else 0
  | str s => (s.toNat?).getD 0
  | _ => 0

/-- Embeds `QVariant::toUrl`, kept as the underlying string: a string converts
to the URL it spells, anything else to an empty URL. -/
def asUrlString : QVariant → String
  | str s => s
  | _ => ""

end QVariant

/-- Just the scheme/path pair of a `QUrl`, which is all `ExtractSong` and
the qobuz:// URL handler use. -/
structure QUrlRec where
  scheme : String := ""
  path : String := ""
deriving Repr, DecidableEq, Inhabited

/-- Embeds `kNsecPerSec` from core/timeconstants.h: nanoseconds per second. -/
def kNsecPerSec : Nat := 1000000000

/-- The fields of the Clementine `Song` record that `QobuzService::ExtractSong`
writes, with a default-constructed song marked invalid. -/
structure Song where
  valid : Bool := false
  url : QUrlRec := {}
  artist : String := ""
  title : String := ""
  length_nanosec : Nat := 0
  playcount : Int := 0
  album : String := ""
  genre : String := ""
  art_automatic : String := ""
  albumartist : String := ""
  year : Int := 0
deriving Repr, DecidableEq, Inhabited

/-- The validity test `ExtractSong` applies to a response object: the map
is non-empty and its "streamable" field converts to true.  These are the
required fields in the sense of the spec sentence "if required fields are
present, the record is valid". -/
def requiredFieldsPresent (result_song : QVariantMap) : Bool :=
  !result_song.isEmpty && (qget result_song "streamable").asBool

/-- Embeds `QobuzService::ExtractSong`.  `yearOf` models
`QDateTime::setTime_t(t).date().year()`, the (timezone-dependent)
calendar year of a Unix timestamp; the theorems hold for every such
function. -/
def ExtractSong (yearOf : Int → Int) (result_song : QVariantMap) : Song :=
  if requiredFieldsPresent result_song then
    let result_album := (qget result_song "album").asMap
    { valid := true
      url := { scheme := "qobuz", path := (qget result_song "id").asString }
      artist := (qget (qget result_song "performer").asMap "name").asString
      title := (qget result_song "title").asString
      length_nanosec := (qget result_song "duration").asULongLong * kNsecPerSec
      playcount := (qget result_song "track_number").asInt
      album := (qget result_album "title").asString
      genre := (qget (qget result_album "genre").asMap "name").asString
      art_automatic := (qget (qget result_album "image").asMap "large").asString
      albumartist :=
        (qget (qget (qget result_song "album").asMap "artist").asMap "name").asString
      year := yearOf ((qget result_album "released_at").asInt) }
  else {}

/-- Embeds `QobuzService::ExtractSongs`: loop over result["items"], keeping the
songs `ExtractSong` marks valid, translated as the fold the loop is. -/
def ExtractSongs (yearOf : Int → Int) (result : QVariant) : List Song :=
  let items := (qget result.asMap "items").asList
  items.foldl
    (fun songs item =>
      let song := ExtractSong yearOf item.asMap
      if song.valid then songs ++ [song] else songs)
    []

/-- The accumulated fold in `ExtractSongs` is projection-then-filter. -/
theorem extractSongs_foldl (yearOf : Int → Int) (items : List QVariant)
    (acc : List Song) :
    items.foldl
      (fun songs item =>
        let song := ExtractSong yearOf item.asMap
        if song.valid then songs ++ [song] else songs) acc
      = acc ++ (items.map (fun it => ExtractSong yearOf it.asMap)).filter
          (fun s => s.valid) := by
  induction items generalizing acc with
  | nil => simp
  | cons x xs ih =>
    simp only [List.foldl_cons, List.map_cons, List.filter_cons]
    by_cases h : (ExtractSong yearOf x.asMap).valid
    · simp [h, ih, List.append_assoc]
    · simp [h, ih]

/-! ## Constants of qobuzservice.cpp -/

def kBaseUrl : String := "http://www.qobuz.com/api.json/0.2"
def kSearch : String := "/catalog/search"
def kSteamUrl : String := "/track/getFileUrl"
def kUserDeleteFavorite : String := "/favorite/delete"
def kUpdatePlaylist : String := "/playlist/update"
def kGetPlaylist : String := "/playlist/get"
def kAppSecret : String := ""
def kSongSearchLimit : Int := 100
def kSongSimpleSearchLimit : Int := 30

/-- Embeds `QobuzService::Error::NO_ERROR`. -/
def NO_ERROR : Int := 200
/-- Embeds `QobuzService::Error::UNAUTHORIZED`. -/
def UNAUTHORIZED : Int := 401

/-- Embeds `QobuzService::Quality::NONE`. -/
def QualityNONE : Int := 0
/-- Embeds `QobuzService::Quality::MP3`. -/
def QualityMP3 : Int := 5

/-- An HTTP request as `CreateRequest` assembles it: the resource path
appended to `kBaseUrl`, its query parameters in order, and whether the
x-user-auth-token header is attached. -/
structure Request where
  resource : String
  params : List (String × String)
  auth : Bool := false
deriving Repr, DecidableEq, Inhabited

/-- Embeds `QobuzService::PlaylistInfo`; the `QStandardItem*` pointer becomes a
tree-node identifier. -/
structure PlaylistInfo where
  id : Int := 0
  name : String := ""
  item : Nat := 0
  songs_ids : List Int := []
deriving Repr, DecidableEq, Inhabited

/-- Persisted `QSettings` entries of the "Qobuz" group (values kept as
their string form; the claims depend only on which keys are present). -/
abbrev Settings := List (String × String)

/-- Embeds `QSettings::remove(key)` within the group. -/
def settingsRemove (s : Settings) (k : String) : Settings :=
  s.filter (fun p => !(p.1 == k))

/-- Embeds `QSettings::value(key)` within the group, `none` when absent. -/
def settingsValue (s : Settings) (k : String) : Option String :=
  s.lookup k

/-- The state of a `QobuzService` object, together with the task-manager
state it observes (`tasks` holds the identifiers of running tasks) and
the rows of the service tree nodes.  `QStandardItem*` pointers become
`Option Nat` node identifiers; `root_rows` lists the node identifiers
currently attached to the root item. -/
structure ServiceState where
  access_token : String := ""
  user_id : String := ""
  quality : Int := QualityMP3
  settings : Settings := []
  pending_search : String := ""
  search_delay_active : Bool := false
  next_pending_search_id : Int := 0
  task_search_id : Int := 0
  next_pending_playlist_id : Int := 0
  task_featured_playlists_id : Int := 0
  task_user_playlists_id : Int := 0
  task_user_favorites_id : Int := 0
  pending_retrieve_playlists : List Int := []
  featured_playlists_info : List (Int × PlaylistInfo) := []
  user_playlists_info : List (Int × PlaylistInfo) := []
  tasks : List Int := []
  next_task_id : Int := 1
  root_rows : List Nat := []
  search_node : Option Nat := none
  user_favorites_node : Option Nat := none
  user_playlists_node : Option Nat := none
  featured_playlists_node : Option Nat := none
  search_rows : List Song := []
deriving Repr, DecidableEq, Inhabited

/-- Embeds `TaskManager::ContainsTask`. -/
def containsTask (s : ServiceState) (id : Int) : Bool :=
  s.tasks.contains id

/-- Embeds `TaskManager::StartTask`: allocates a fresh task id and records the
task as running. -/
def startTask (s : ServiceState) : Int × ServiceState :=
  (s.next_task_id,
   { s with tasks := s.tasks ++ [s.next_task_id],
            next_task_id := s.next_task_id + 1 })

/-- Embeds `TaskManager::SetTaskFinished`. -/
def setTaskFinished (id : Int) (s : ServiceState) : ServiceState :=
  { s with tasks := s.tasks.erase id }

/-- Embeds `QobuzService::IsLoggedIn`. -/
def IsLoggedIn (s : ServiceState) : Bool :=
  !s.access_token.isEmpty

/-! ## Logout and its polling wait

`Logout` first loops on `WaitForSignal(task_manager, TasksChanged)` while
any of the four tracked tasks is running, then loops on
`WaitForSignal(this, PlaylistRetrieved)` while `pending_retrieve_playlists_`
is non-empty.  Each `WaitForSignal` spins an event loop; its effect on the
state the loop conditions read is modelled by an explicit event: a
`TasksChanged` wake-up delivers new task-manager and pending-retrieve
contents, and a `PlaylistRetrieved` wake-up corresponds to one run of the
`PlaylistRetrieved(reply, playlist_id, request_id)` slot, which removes
`request_id` from the pending set before emitting.  The handlers of neither signal touch credentials or the playlist-info maps.  The loops have no
fuel of their own: exhausting the event list models a wait that never
returns, and yields `none`. -/

/-- What a `TasksChanged` wake-up during the first wait loop may change:
the set of running tasks and the pending playlist-retrievals. -/
structure TasksChangedEvent where
  tasks : List Int := []
  pending : List Int := []
deriving Repr, DecidableEq, Inhabited

/-- The condition of the first wait loop in `Logout`: one of the four
tracked tasks is still in the task manager. -/
def trackedTaskRunning (s : ServiceState) : Bool :=
  containsTask s s.task_featured_playlists_id
  || containsTask s s.task_search_id
  || containsTask s s.task_user_favorites_id
  || containsTask s s.task_user_playlists_id

def applyTasksChanged (e : TasksChangedEvent) (s : ServiceState) : ServiceState :=
  { s with tasks := e.tasks, pending_retrieve_playlists := e.pending }

/-- The first wait loop of `Logout`. -/
def waitForTrackedTasks : List TasksChangedEvent → ServiceState →
    Option ServiceState
  | evs, s =>
    if trackedTaskRunning s then
      match evs with
      | [] => none
      | e :: rest => waitForTrackedTasks rest (applyTasksChanged e s)
    else some s

/-- The second wait loop of `Logout`: each `PlaylistRetrieved` wake-up is
one run of the `PlaylistRetrieved` slot on some `request_id`, which
removes it from the pending set. -/
def waitForPendingRetrieves : List Int → ServiceState → Option ServiceState
  | evs, s =>
    if s.pending_retrieve_playlists.isEmpty then some s
    else
      match evs with
      | [] => none
      | rid :: rest =>
          waitForPendingRetrieves rest
            { s with pending_retrieve_playlists :=
                s.pending_retrieve_playlists.erase rid }

/-- Embeds `root_->removeRow(node->row())` for an optional tree node. -/
def removeNodeRow (node : Option Nat) (rows : List Nat) : List Nat :=
  match node with
  | some n => rows.erase n
  | none => rows

/-- The teardown `Logout` performs once both waits have passed (lines
284-311 of qobuzservice.cpp): clear credentials, reset quality, remove
the persisted keys, detach the four tree nodes, clear both playlist-info
maps and the pending search text. -/
def clearSession (s : ServiceState) : ServiceState :=
  let rows := removeNodeRow s.featured_playlists_node s.root_rows
  let rows := removeNodeRow s.user_favorites_node rows
  let rows := removeNodeRow s.user_playlists_node rows
  let rows := removeNodeRow s.search_node rows
  { s with
    access_token := ""
    user_id := ""
    quality := QualityNONE
    settings :=
      settingsRemove (settingsRemove (settingsRemove s.settings
        "access_token") "user_id") "quality"
    root_rows := rows
    featured_playlists_node := none
    user_favorites_node := none
    user_playlists_node := none
    search_node := none
    featured_playlists_info := []
    user_playlists_info := []
    pending_search := "" }

/-- Embeds `QobuzService::Logout`, driven by the events the two polling waits
consume; `none` models a logout that is still blocked waiting. -/
def Logout (evs1 : List TasksChangedEvent) (evs2 : List Int)
    (s : ServiceState) : Option ServiceState :=
  match waitForTrackedTasks evs1 (startTask s).2 with
  | none => none
  | some s1 =>
    match waitForPendingRetrieves evs2 s1 with
    | none => none
    | some s2 => some (setTaskFinished (startTask s).1 (clearSession s2))

/-! ## ExtractResult -/

/-- The signals a `QobuzService` emits that the claims mention. -/
inductive Signal where
  | ReplyError (status_code : Int)
deriving Repr, DecidableEq

/-- A finished `QNetworkReply`: its HTTP status attribute (0 when the
attribute is invalid) and the QJson parse of its body, `none` when
parsing failed (`ok == false`, an invalid `QVariant`). -/
structure Reply where
  status : Int
  body : Option QVariant

/-- Embeds `QobuzService::ExtractResult`.  On a status other than 200 it emits
`ReplyError` and returns an empty map, after calling `Logout` when the
status is 401 (the wait events of that logout are passed in); otherwise
it returns the parsed body as a map.  `none` models the 401 path blocking
inside `Logout`. -/
def ExtractResult (evs1 : List TasksChangedEvent) (evs2 : List Int)
    (reply : Reply) (s : ServiceState) :
    Option (ServiceState × QVariantMap × List Signal) :=
  if reply.status ≠ NO_ERROR then
    let after := if reply.status = UNAUTHORIZED then Logout evs1 evs2 s else some s
    match after with
    | none => none
    | some s1 => some (s1, [], [Signal.ReplyError reply.status])
  else
    let result := (reply.body.getD QVariant.null)
    some (s, result.asMap, [])

/-! ## Search operations -/

/-- Embeds `QobuzService::ClearSearchResults`: removes all rows of the search
node when it exists. -/
def ClearSearchResults (s : ServiceState) : ServiceState :=
  if s.search_node.isSome then { s with search_rows := [] } else s

/-- Embeds `QobuzService::DoSearch`: clears previous results and issues the
catalog search for the pending text. -/
def DoSearch (s : ServiceState) : ServiceState × Request :=
  let s := ClearSearchResults s
  (s,
   { resource := kSearch
     params := [("limit", toString kSongSearchLimit),
                ("query", s.pending_search),
                ("type", "tracks")]
     auth := true })

/-- Embeds `QobuzService::Search(text, now)`: records the pending text, starts
the search task if absent, and either clears results (empty text),
searches immediately (`now`), or arms the delay timer.  The returned
request is the network request issued, if any. -/
def Search (text : String) (now : Bool) (s : ServiceState) :
    ServiceState × Option Request :=
  let s := { s with pending_search := text }
  let s :=
    if s.task_search_id == 0 then
      let (tid, s) := startTask s
      { s with task_search_id := tid }
    else s
  if text.isEmpty then
    let s := { s with search_delay_active := false }
    (ClearSearchResults s, none)
  else if now then
    let s := { s with search_delay_active := false }
    let (s, req) := DoSearch s
    (s, some req)
  else
    ({ s with search_delay_active := true }, none)

/-- Embeds `QobuzService::SimpleSearch`: issues the catalog search for `text`
and returns the fresh request identifier `next_pending_search_id_++`. -/
def SimpleSearch (text : String) (s : ServiceState) :
    Int × ServiceState × Request :=
  let req : Request :=
    { resource := kSearch
      params := [("limit", toString kSongSimpleSearchLimit),
                 ("query", text),
                 ("type", "tracks")]
      auth := true }
  (s.next_pending_search_id,
   { s with next_pending_search_id := s.next_pending_search_id + 1 },
   req)

/-! ## Streaming-URL request (track/getFileUrl) -/

/-- Embeds `QString::replace("/", "")`: drop every slash. -/
def stripSlashes (s : String) : String :=
  String.mk (s.data.filter (fun c => c ≠ '/'))

/-- The signed request `GetStreamingUrlFromSongId` builds, parameterized
by the MD5-to-lowercase-hex function (`QCryptographicHash::Md5` +
`toHex`), the current quality, the song id and the request timestamp
(`time(nullptr)` printed in base 10). -/
def GetStreamingUrlRequest (md5hex : String → String) (quality : Int)
    (id ts : String) : Request :=
  let parameters : List (String × String) :=
    [("format_id", toString quality), ("intent", "stream"), ("track_id", id)]
  let request_sig := stripSlashes kSteamUrl
  let request_sig := parameters.foldl (fun acc p => acc ++ p.1 ++ p.2) request_sig
  let request_sig := request_sig ++ ts
  let request_sig := request_sig ++ kAppSecret
  let request_sig := md5hex request_sig
  { resource := kSteamUrl
    params := parameters ++ [("request_ts", ts), ("request_sig", request_sig)]
    auth := true }

/-- Embeds `QobuzService::GetStreamingUrlFromSongId`: sends the signed request,
waits for the reply, and returns the "url" field of the extracted
result.  The produced request and the returned URL string are paired so
both can be inspected. -/
def GetStreamingUrlFromSongId (md5hex : String → String) (id ts : String)
    (reply : Reply) (evs1 : List TasksChangedEvent) (evs2 : List Int)
    (s : ServiceState) : Option (Request × ServiceState × String) :=
  let req := GetStreamingUrlRequest md5hex s.quality id ts
  match ExtractResult evs1 evs2 reply s with
  | none => none
  | some (s1, result, _) => some (req, s1, (qget result "url").asUrlString)

/-! ## Song-id list parameter and its callers -/

/-- Embeds `QobuzService::SongsIdsToStringParameter`: the loop writes
`number(songs.at(i)) + ","` for `i = 0 .. length-2`, then appends
`number(songs.at(i))` with `i == max(length-1, 0)`; that final
`QList::at` is out of bounds on the empty list, modelled as `none`. -/
def SongsIdsToStringParameter (songs : List Int) : Option String :=
  let front := String.join
    ((songs.take (songs.length - 1)).map (fun n => toString n ++ ","))
  match songs.get? (songs.length - 1) with
  | none => none
  | some last => some (front ++ toString last)

/-- Outcome of one of the operations that serialize a song-id list. -/
inductive CallOutcome where
  | noRequest
  | request (r : Request)
  | outOfBounds
deriving Repr, DecidableEq, Inhabited

/-- Embeds `QobuzService::RemoveFromFavorites`: returns without a request on an
empty list, otherwise serializes the ids into the favorite/delete
request. -/
def RemoveFromFavorites (songs_ids_to_remove : List Int) : CallOutcome :=
  if songs_ids_to_remove.isEmpty then CallOutcome.noRequest
  else
    match SongsIdsToStringParameter songs_ids_to_remove with
    | none => CallOutcome.outOfBounds
    | some str =>
        CallOutcome.request
          { resource := kUserDeleteFavorite
            params := [("track_ids", str)]
            auth := true }

/-- Embeds `QobuzService::SetPlaylistSongs`: returns early only while playlist
retrievals are pending, then serializes the ids (unguarded against the
empty list) into the playlist/update request. -/
def SetPlaylistSongs (playlist_id : Int) (songs_ids : List Int)
    (pending_retrieve_playlists : List Int) : CallOutcome :=
  if !pending_retrieve_playlists.isEmpty then CallOutcome.noRequest
  else
    match SongsIdsToStringParameter songs_ids with
    | none => CallOutcome.outOfBounds
    | some str =>
        CallOutcome.request
          { resource := kUpdatePlaylist
            params := [("playlist_id", toString playlist_id),
                       ("track_ids", str)]
            auth := true }

/-! ## The global-search provider (qobuzsearchprovider.cpp) -/

/-- Embeds `SearchProvider::PendingState`: the original caller id and the
tokenized query. -/
structure PendingState where
  orig_id : Int := 0
  tokens : List String := []
deriving Repr, DecidableEq, Inhabited

/-- Embeds the correlation table of `QobuzSearchProvider`,
`QMap<int, PendingState> pending_searches_`. -/
structure ProviderState where
  pending_searches : List (Int × PendingState) := []
deriving Repr, DecidableEq, Inhabited

/-- Embeds `QMap::operator[]=`: replace the value at the key, or insert. -/
def qmapInsert (m : List (Int × PendingState)) (k : Int) (v : PendingState) :
    List (Int × PendingState) :=
  match m with
  | [] => [(k, v)]
  | (k1, v1) :: rest =>
      if k1 = k then (k, v) :: rest else (k1, v1) :: qmapInsert rest k v

/-- Embeds `QMap::take`: remove the entry at the key. -/
def qmapTake (m : List (Int × PendingState)) (k : Int) :
    List (Int × PendingState) :=
  m.filter (fun p => !(p.1 == k))

/-- Signals emitted by the provider. -/
inductive PSignal where
  | ResultsAvailable (id : Int) (results : List Song)
  | SearchFinished (id : Int)
deriving Repr, DecidableEq

/-- Embeds `QobuzSearchProvider::SearchAsync`: issue `SimpleSearch(query)` on
the service and file the caller context under the returned request
id.  `tokenize` models `SearchProvider::TokenizeQuery`. -/
def SearchAsync (tokenize : String → List String) (id : Int)
    (query : String) (ps : ProviderState) (ss : ServiceState) :
    ProviderState × ServiceState × Request :=
  let (service_id, ss1, req) := SimpleSearch query ss
  ({ pending_searches :=
       qmapInsert ps.pending_searches service_id
         { orig_id := id, tokens := tokenize query } },
   ss1, req)

/-- Embeds `QobuzSearchProvider::SearchDone`: take the pending entry for the
service request id, map back to the original id, emit the results, and
emit `SearchFinished` when no pending search for that original id
remains (`MaybeSearchFinished`; `PendingState` values compare by
original id). -/
def SearchDone (id : Int) (songs : List Song) (ps : ProviderState) :
    ProviderState × List PSignal :=
  let state := (ps.pending_searches.lookup id).getD {}
  let ps1 : ProviderState :=
    { pending_searches := qmapTake ps.pending_searches id }
  let global_search_id := state.orig_id
  let finished :=
    (ps1.pending_searches.filter
      (fun p => p.2.orig_id == global_search_id)).isEmpty
  (ps1,
   PSignal.ResultsAvailable global_search_id songs ::
     (if finished then [PSignal.SearchFinished global_search_id] else []))

/-! ## Helper lemmas -/

theorem string_foldl_append (xs : List String) (a b : String) :
    xs.foldl (fun r t => r ++ t) (a ++ b) = a ++ xs.foldl (fun r t => r ++ t) b := by
  induction xs generalizing b with
  | nil => simp
  | cons x xs ih =>
    simp only [List.foldl_cons, String.append_assoc]
    exact ih (b ++ x)

theorem string_join_cons (x : String) (xs : List String) :
    String.join (x :: xs) = x ++ String.join xs := by
  have h := string_foldl_append xs x ""
  simp only [String.append_empty] at h
  simpa [String.join, String.empty_append] using h

/-- The property claimed of `SongsIdsToStringParameter` on non-empty
input, written as the claim words it: the ids in order, in base 10,
joined by single commas with no trailing separator. -/
def commaJoined : List Int → String
  | [] => ""
  | n :: rest =>
      if rest.isEmpty then toString n else toString n ++ "," ++ commaJoined rest

theorem songsIds_singleton (n : Int) :
    SongsIdsToStringParameter [n] = some (toString n) := by
  simp [SongsIdsToStringParameter, String.join, String.empty_append]

theorem songsIds_cons_cons (a b : Int) (rest : List Int) :
    SongsIdsToStringParameter (a :: b :: rest)
      = (SongsIdsToStringParameter (b :: rest)).map
          (fun t => toString a ++ "," ++ t) := by
  simp only [SongsIdsToStringParameter, List.length_cons, Nat.add_sub_cancel,
    List.take_succ_cons, List.map_cons, string_join_cons, List.get?_cons_succ]
  cases hget : (b :: rest).get? rest.length with
  | none => simp
  | some last => simp [String.append_assoc]

theorem songsIds_eq_commaJoined :
    ∀ songs : List Int, songs ≠ [] →
      SongsIdsToStringParameter songs = some (commaJoined songs)
  | [], h => absurd rfl h
  | [n], _ => by simp [songsIds_singleton, commaJoined]
  | a :: b :: rest, _ => by
    rw [songsIds_cons_cons, songsIds_eq_commaJoined (b :: rest) (by simp)]
    simp [commaJoined]

theorem clearSearchResults_pending_search (s : ServiceState) :
    (ClearSearchResults s).pending_search = s.pending_search := by
  unfold ClearSearchResults; split <;> rfl

/-! ## Claim theorems -/

/-- C5: `ExtractSong` returns a valid song, with url qobuz://id and the
artist, title, duration, album, genre, cover, album artist and year
fields projected from the named JSON fields, exactly when the required
fields are present (non-empty object with truthy "streamable"), and an
invalid default song otherwise; `ExtractSongs` keeps only the valid
records of result["items"]. -/
theorem qobuz_c5_extract_song_projection (yearOf : Int → Int) (m : QVariantMap) :
    (requiredFieldsPresent m = true →
      (ExtractSong yearOf m).valid = true ∧
      (ExtractSong yearOf m).url = { scheme := "qobuz", path := (qget m "id").asString } ∧
      (ExtractSong yearOf m).artist = (qget (qget m "performer").asMap "name").asString ∧
      (ExtractSong yearOf m).title = (qget m "title").asString ∧
      (ExtractSong yearOf m).length_nanosec
        = (qget m "duration").asULongLong * kNsecPerSec ∧
      (ExtractSong yearOf m).album = (qget (qget m "album").asMap "title").asString ∧
      (ExtractSong yearOf m).genre
        = (qget (qget (qget m "album").asMap "genre").asMap "name").asString ∧
      (ExtractSong yearOf m).art_automatic
        = (qget (qget (qget m "album").asMap "image").asMap "large").asString ∧
      (ExtractSong yearOf m).albumartist
        = (qget (qget (qget m "album").asMap "artist").asMap "name").asString ∧
      (ExtractSong yearOf m).year
        = yearOf ((qget (qget m "album").asMap "released_at").asInt)) ∧
    (requiredFieldsPresent m = false → ExtractSong yearOf m = {}) ∧
    (∀ v : QVariant, ExtractSongs yearOf v
      = ((qget v.asMap "items").asList.map
          (fun it => ExtractSong yearOf it.asMap)).filter (fun song => song.valid)) := by
  refine ⟨fun h => ?_, fun h => ?_, fun v => ?_⟩
  · simp [ExtractSong, h]
  · simp [ExtractSong, h]
  · simp only [ExtractSongs]
    exact (extractSongs_foldl yearOf ((qget v.asMap "items").asList) []).trans (by simp)

/-- Witness for C5 at a concrete response object with the required
fields present, and at the empty object. -/
theorem qobuz_c5_witness :
    requiredFieldsPresent
        [("streamable", QVariant.bool true), ("id", QVariant.str "42"),
         ("title", QVariant.str "Song A")] = true ∧
    (ExtractSong (fun _ => 2001)
        [("streamable", QVariant.bool true), ("id", QVariant.str "42"),
         ("title", QVariant.str "Song A")]).url
      = { scheme := "qobuz", path := "42" } ∧
    requiredFieldsPresent [] = false ∧
    ExtractSong (fun _ => 2001) [] = {} := by
  refine ⟨by decide, ?_, by decide, ?_⟩
  · exact ((qobuz_c5_extract_song_projection (fun _ => 2001)
      [("streamable", QVariant.bool true), ("id", QVariant.str "42"),
       ("title", QVariant.str "Song A")]).1 (by decide)).2.1
  · exact (qobuz_c5_extract_song_projection (fun _ => 2001) []).2.1 (by decide)

/-- C7: a reply whose HTTP status differs from 200 makes `ExtractResult`
return the empty map and emit `ReplyError` with that status; a
non-empty parsed result is possible only on status 200. -/
theorem qobuz_c7_errors_surfaced (evs1 : List TasksChangedEvent) (evs2 : List Int)
    (reply : Reply) (s s1 : ServiceState) (result : QVariantMap)
    (sigs : List Signal)
    (h : ExtractResult evs1 evs2 reply s = some (s1, result, sigs)) :
    (reply.status ≠ NO_ERROR →
      result = [] ∧ sigs = [Signal.ReplyError reply.status]) ∧
    (result ≠ [] → reply.status = NO_ERROR) := by
  unfold ExtractResult at h
  by_cases hs : reply.status = NO_ERROR
  · simp only [hs, ne_eq, not_true_eq_false, if_false, Option.some.injEq,
      Prod.mk.injEq] at h
    exact ⟨fun hne => absurd hs hne, fun _ => hs⟩
  · simp only [ne_eq, hs, not_false_eq_true, if_true] at h
    cases hL : (if reply.status = UNAUTHORIZED then Logout evs1 evs2 s else some s) with
    | none => rw [hL] at h; simp at h
    | some s2 =>
      rw [hL] at h
      simp only [Option.some.injEq, Prod.mk.injEq] at h
      obtain ⟨-, hres, hsig⟩ := h
      exact ⟨fun _ => ⟨hres.symm, hsig.symm⟩,
             fun hne => absurd hres.symm hne⟩

/-- Witness for C7 at a concrete 404 reply. -/
theorem qobuz_c7_witness :
    ExtractResult [] [] { status := 404, body := none } {}
        = some ({}, [], [Signal.ReplyError 404]) ∧
    ((404 : Int) ≠ NO_ERROR →
      ([] : QVariantMap) = [] ∧
      [Signal.ReplyError 404] = [Signal.ReplyError 404]) := by
  refine ⟨rfl, ?_⟩
  exact (qobuz_c7_errors_surfaced [] [] { status := 404, body := none } {} {}
    [] [Signal.ReplyError 404] rfl).1

/-- C8: `DoSearch` issues /catalog/search with exactly
limit=100 (kSongSearchLimit), query=pending search text, type=tracks;
`SimpleSearch` issues the same endpoint with exactly limit=30
(kSongSimpleSearchLimit), query=text, type=tracks. -/
theorem qobuz_c8_fixed_search_parameters (s : ServiceState) (text : String) :
    (DoSearch s).2
      = { resource := "/catalog/search"
          params := [("limit", "100"), ("query", s.pending_search), ("type", "tracks")]
          auth := true } ∧
    (SimpleSearch text s).2.2
      = { resource := "/catalog/search"
          params := [("limit", "30"), ("query", text), ("type", "tracks")]
          auth := true } := by
  constructor
  · unfold DoSearch
    simp [clearSearchResults_pending_search, kSearch, kSongSearchLimit]
    decide
  · rfl

/-- C9: `SongsIdsToStringParameter` maps every non-empty id list to the
base-10 ids joined by single commas with no trailing separator, and its
final element access is out of bounds on the empty list;
`RemoveFromFavorites` guards against the empty list while
`SetPlaylistSongs` (with no retrieval pending) does not. -/
theorem qobuz_c9_song_ids_parameter (songs : List Int) :
    (songs ≠ [] →
      SongsIdsToStringParameter songs = some (commaJoined songs)) ∧
    SongsIdsToStringParameter [] = none ∧
    RemoveFromFavorites [] = CallOutcome.noRequest ∧
    (∀ playlist_id : Int,
      SetPlaylistSongs playlist_id [] [] = CallOutcome.outOfBounds) := by
  exact ⟨songsIds_eq_commaJoined songs, rfl, rfl, fun _ => rfl⟩

/-- Witness for C9 at the concrete list [3, -1, 25]. -/
theorem qobuz_c9_witness :
    SongsIdsToStringParameter [3, -1, 25] = some (commaJoined [3, -1, 25]) ∧
    commaJoined [3, -1, 25] = "3,-1,25" :=
  ⟨(qobuz_c9_song_ids_parameter [3, -1, 25]).1 (by decide), by decide⟩

theorem stripSlashes_kSteamUrl : stripSlashes kSteamUrl = "trackgetFileUrl" := by
  decide

/-- C4: the streaming-URL request is signed as the Qobuz API requires:
request_sig is the MD5 hex of the endpoint name with slashes removed,
the three parameters as name-value pairs in alphabetical order
(format_id, intent, track_id), the timestamp and the app secret; the
request carries those three parameters plus request_ts and request_sig,
and the function returns the "url" field of the JSON reply. -/
theorem qobuz_c4_signed_streaming_request (md5hex : String → String)
    (id ts : String) (reply : Reply) (evs1 : List TasksChangedEvent)
    (evs2 : List Int) (s : ServiceState) (req : Request) (s1 : ServiceState)
    (url : String)
    (h : GetStreamingUrlFromSongId md5hex id ts reply evs1 evs2 s
      = some (req, s1, url)) :
    req.resource = kSteamUrl ∧
    req.params
      = [("format_id", toString s.quality), ("intent", "stream"),
         ("track_id", id), ("request_ts", ts),
         ("request_sig",
          md5hex ("trackgetFileUrl" ++ "format_id" ++ toString s.quality
            ++ "intent" ++ "stream" ++ "track_id" ++ id ++ ts ++ kAppSecret))] ∧
    (reply.status = NO_ERROR →
      url = (qget (reply.body.getD QVariant.null).asMap "url").asUrlString) := by
  unfold GetStreamingUrlFromSongId at h
  cases hE : ExtractResult evs1 evs2 reply s with
  | none => rw [hE] at h; simp at h
  | some t =>
    obtain ⟨s2, result, sigs⟩ := t
    rw [hE] at h
    simp only [Option.some.injEq, Prod.mk.injEq] at h
    obtain ⟨hreq, hs1, hurl⟩ := h
    refine ⟨?_, ?_, ?_⟩
    · rw [← hreq]; rfl
    · rw [← hreq]
      simp [GetStreamingUrlRequest, stripSlashes_kSteamUrl]
    · intro h200
      unfold ExtractResult at hE
      simp only [h200, ne_eq, not_true_eq_false, if_false, Option.some.injEq,
        Prod.mk.injEq] at hE
      rw [← hurl, ← hE.2.1]

/-- Witness for C4 at quality MP3, song id 7, timestamp 111, app secret
empty, with the hex-MD5 function instantiated by the identity so that the
signed string is visible, on a 200 reply whose body is {"url": u}. -/
theorem qobuz_c4_witness :
    (GetStreamingUrlRequest (fun t => t) QualityMP3 "7" "111").resource = kSteamUrl ∧
    (GetStreamingUrlRequest (fun t => t) QualityMP3 "7" "111").params
      = [("format_id", toString ({} : ServiceState).quality), ("intent", "stream"),
         ("track_id", "7"), ("request_ts", "111"),
         ("request_sig",
          (fun t => t) ("trackgetFileUrl" ++ "format_id"
            ++ toString ({} : ServiceState).quality ++ "intent" ++ "stream"
            ++ "track_id" ++ "7" ++ "111" ++ kAppSecret))] ∧
    ((200 : Int) = NO_ERROR →
      "http://x" = (qget ((some (QVariant.map [("url", QVariant.str "http://x")])).getD
        QVariant.null).asMap "url").asUrlString) :=
  qobuz_c4_signed_streaming_request (fun t => t) "7" "111"
    { status := 200, body := some (QVariant.map [("url", QVariant.str "http://x")]) }
    [] [] {} (GetStreamingUrlRequest (fun t => t) QualityMP3 "7" "111") {}
    "http://x" (by rfl)

theorem lookup_qmapInsert_self (m : List (Int × PendingState)) (k : Int)
    (v : PendingState) : (qmapInsert m k v).lookup k = some v := by
  induction m with
  | nil => simp [qmapInsert, List.lookup]
  | cons p rest ih =>
    obtain ⟨k1, v1⟩ := p
    by_cases hk : k1 = k
    · simp [qmapInsert, hk, List.lookup]
    · have hbe : (k == k1) = false :=
        beq_eq_false_iff_ne.mpr (fun h2 => hk h2.symm)
      simp only [qmapInsert, if_neg hk, List.lookup, hbe]
      exact ih

theorem lookup_eq_none_of_keys_ne (m : List (Int × PendingState)) (k : Int)
    (h : ∀ p ∈ m, p.1 ≠ k) : m.lookup k = none := by
  induction m with
  | nil => rfl
  | cons p rest ih =>
    obtain ⟨k1, v1⟩ := p
    have hk1 : k1 ≠ k := h (k1, v1) (by simp)
    have hbe : (k == k1) = false :=
      beq_eq_false_iff_ne.mpr (fun h2 => hk1 h2.symm)
    simp only [List.lookup, hbe]
    exact ih (fun q hq => h q (List.mem_cons_of_mem _ hq))

theorem qmapTake_qmapInsert_fresh (m : List (Int × PendingState)) (k : Int)
    (v : PendingState) (h : ∀ p ∈ m, p.1 ≠ k) :
    qmapTake (qmapInsert m k v) k = m := by
  induction m with
  | nil => simp [qmapInsert, qmapTake]
  | cons p rest ih =>
    obtain ⟨k1, v1⟩ := p
    have hk1 : k1 ≠ k := h (k1, v1) (by simp)
    simp only [qmapInsert, if_neg hk1, qmapTake, List.filter_cons]
    rw [if_pos (by simpa using hk1)]
    have := ih (fun q hq => h q (List.mem_cons_of_mem _ hq))
    simp only [qmapTake] at this
    rw [this]

/-- C1: `SearchAsync(id, query)` stores the caller context under the
fresh request identifier returned by `SimpleSearch(query)`, and
`SearchDone` on that identifier removes the entry and emits
`ResultsAvailable` with the original caller id, so the reply is routed
back to exactly the caller that issued it.  The hypothesis is the
freshness invariant of `next_pending_search_id_`: every filed key was
allocated by an earlier `SimpleSearch`. -/
theorem qobuz_c1_search_reply_routing (tokenize : String → List String)
    (id : Int) (query : String) (ps : ProviderState) (ss : ServiceState)
    (songs : List Song)
    (hfresh : ∀ p ∈ ps.pending_searches, p.1 < ss.next_pending_search_id) :
    (SearchAsync tokenize id query ps ss).1.pending_searches.lookup
        (SimpleSearch query ss).1
      = some { orig_id := id, tokens := tokenize query } ∧
    ps.pending_searches.lookup (SimpleSearch query ss).1 = none ∧
    (SearchDone (SimpleSearch query ss).1 songs
        (SearchAsync tokenize id query ps ss).1).1.pending_searches
      = ps.pending_searches ∧
    (SearchDone (SimpleSearch query ss).1 songs
        (SearchAsync tokenize id query ps ss).1).2.head?
      = some (PSignal.ResultsAvailable id songs) := by
  have hne : ∀ p ∈ ps.pending_searches, p.1 ≠ ss.next_pending_search_id :=
    fun p hp => ne_of_lt (hfresh p hp)
  have hlook :
      (SearchAsync tokenize id query ps ss).1.pending_searches.lookup
        ss.next_pending_search_id
        = some { orig_id := id, tokens := tokenize query } :=
    lookup_qmapInsert_self ps.pending_searches ss.next_pending_search_id _
  refine ⟨hlook, lookup_eq_none_of_keys_ne _ _ hne, ?_, ?_⟩
  · show qmapTake (qmapInsert ps.pending_searches ss.next_pending_search_id _)
        ss.next_pending_search_id = ps.pending_searches
    exact qmapTake_qmapInsert_fresh _ _ _ hne
  · show (PSignal.ResultsAvailable
        (((qmapInsert ps.pending_searches ss.next_pending_search_id
            { orig_id := id, tokens := tokenize query }).lookup
              ss.next_pending_search_id).getD {}).orig_id songs :: _).head?
      = some (PSignal.ResultsAvailable id songs)
    rw [lookup_qmapInsert_self]
    rfl

/-- Witness for C1 with an empty correlation table, caller id 9 and
query "abc". -/
theorem qobuz_c1_witness :
    (SearchAsync (fun q => [q]) 9 "abc" {} {}).1.pending_searches.lookup
        (SimpleSearch "abc" ({} : ServiceState)).1
      = some { orig_id := 9, tokens := ["abc"] } ∧
    (ProviderState.mk []).pending_searches.lookup
        (SimpleSearch "abc" ({} : ServiceState)).1 = none ∧
    (SearchDone (SimpleSearch "abc" ({} : ServiceState)).1 []
        (SearchAsync (fun q => [q]) 9 "abc" {} {}).1).1.pending_searches
      = (ProviderState.mk []).pending_searches ∧
    (SearchDone (SimpleSearch "abc" ({} : ServiceState)).1 []
        (SearchAsync (fun q => [q]) 9 "abc" {} {}).1).2.head?
      = some (PSignal.ResultsAvailable 9 []) :=
  qobuz_c1_search_reply_routing (fun q => [q]) 9 "abc" {} {} []
    (by intro p hp; simp at hp)

theorem waitForTrackedTasks_spec :
    ∀ (evs : List TasksChangedEvent) (s s1 : ServiceState),
      waitForTrackedTasks evs s = some s1 →
      trackedTaskRunning s1 = false ∧
      s1 = { s with tasks := s1.tasks,
                    pending_retrieve_playlists := s1.pending_retrieve_playlists } := by
  intro evs
  induction evs with
  | nil =>
    intro s s1 h
    unfold waitForTrackedTasks at h
    cases hc : trackedTaskRunning s with
    | true => rw [hc] at h; simp at h
    | false =>
      rw [hc] at h
      simp only [Bool.false_eq_true, if_false, Option.some.injEq] at h
      subst h
      exact ⟨hc, rfl⟩
  | cons e rest ih =>
    intro s s1 h
    unfold waitForTrackedTasks at h
    cases hc : trackedTaskRunning s with
    | true =>
      rw [hc] at h
      simp only [if_true] at h
      obtain ⟨h1, h2⟩ := ih (applyTasksChanged e s) s1 h
      exact ⟨h1, h2⟩
    | false =>
      rw [hc] at h
      simp only [Bool.false_eq_true, if_false, Option.some.injEq] at h
      subst h
      exact ⟨hc, rfl⟩

theorem waitForPendingRetrieves_spec :
    ∀ (evs : List Int) (s s1 : ServiceState),
      waitForPendingRetrieves evs s = some s1 →
      s1.pending_retrieve_playlists = [] ∧
      s1 = { s with pending_retrieve_playlists := s1.pending_retrieve_playlists } := by
  intro evs
  induction evs with
  | nil =>
    intro s s1 h
    unfold waitForPendingRetrieves at h
    cases hc : s.pending_retrieve_playlists.isEmpty with
    | true =>
      rw [hc] at h
      simp only [if_true, Option.some.injEq] at h
      subst h
      exact ⟨List.isEmpty_iff.mp hc, rfl⟩
    | false => rw [hc] at h; simp at h
  | cons rid rest ih =>
    intro s s1 h
    unfold waitForPendingRetrieves at h
    cases hc : s.pending_retrieve_playlists.isEmpty with
    | true =>
      rw [hc] at h
      simp only [if_true, Option.some.injEq] at h
      subst h
      exact ⟨List.isEmpty_iff.mp hc, rfl⟩
    | false =>
      rw [hc] at h
      simp only [Bool.false_eq_true, if_false] at h
      obtain ⟨h1, h2⟩ := ih _ _ h
      exact ⟨h1, h2⟩

/-- Anatomy of a completed `Logout`: it reaches the teardown only from an
intermediate state `s2` in which no tracked task is running and no
playlist retrieval is pending, and up to that point the credentials, the
playlist-info maps and the tree are untouched. -/
theorem logout_anatomy (evs1 : List TasksChangedEvent) (evs2 : List Int)
    (s s1 : ServiceState) (h : Logout evs1 evs2 s = some s1) :
    ∃ s2 : ServiceState,
      trackedTaskRunning s2 = false ∧
      s2.pending_retrieve_playlists = [] ∧
      s2.access_token = s.access_token ∧
      s2.user_id = s.user_id ∧
      s2.settings = s.settings ∧
      s2.featured_playlists_info = s.featured_playlists_info ∧
      s2.user_playlists_info = s.user_playlists_info ∧
      s2.root_rows = s.root_rows ∧
      s2.search_node = s.search_node ∧
      s2.user_favorites_node = s.user_favorites_node ∧
      s2.user_playlists_node = s.user_playlists_node ∧
      s2.featured_playlists_node = s.featured_playlists_node ∧
      s1 = setTaskFinished s.next_task_id (clearSession s2) := by
  unfold Logout at h
  cases hW1 : waitForTrackedTasks evs1 (startTask s).2 with
  | none => rw [hW1] at h; simp at h
  | some sA =>
    rw [hW1] at h
    dsimp only at h
    cases hW2 : waitForPendingRetrieves evs2 sA with
    | none => rw [hW2] at h; simp at h
    | some s2 =>
      rw [hW2] at h
      simp only [Option.some.injEq] at h
      obtain ⟨hA1, hA2⟩ := waitForTrackedTasks_spec evs1 _ sA hW1
      obtain ⟨hB1, hB2⟩ := waitForPendingRetrieves_spec evs2 sA s2 hW2
      refine ⟨s2, ?_, hB1, ?_, ?_, ?_, ?_, ?_, ?_, ?_, ?_, ?_, ?_, h.symm⟩
      · rw [hB2]; exact hA1
      all_goals (rw [hB2, hA2]; rfl)

theorem settingsValue_settingsRemove_self (st : Settings) (k : String) :
    settingsValue (settingsRemove st k) k = none := by
  induction st with
  | nil => rfl
  | cons p rest ih =>
    obtain ⟨k1, v1⟩ := p
    by_cases hk : k1 = k
    · subst hk
      simpa [settingsRemove] using ih
    · have hbe : (k1 == k) = false := beq_eq_false_iff_ne.mpr hk
      have hbe2 : (k == k1) = false :=
        beq_eq_false_iff_ne.mpr (fun h2 => hk h2.symm)
      simp only [settingsRemove, List.filter_cons, hbe, Bool.not_false, if_true,
        settingsValue, List.lookup, hbe2]
      exact ih

theorem settingsValue_settingsRemove_other (st : Settings) (k k1 : String)
    (h : k1 ≠ k) :
    settingsValue (settingsRemove st k) k1 = settingsValue st k1 := by
  induction st with
  | nil => rfl
  | cons p rest ih =>
    obtain ⟨ka, va⟩ := p
    by_cases hk : ka = k
    · subst hk
      have hbe2 : (k1 == ka) = false := beq_eq_false_iff_ne.mpr h
      simp only [settingsRemove, List.filter_cons, beq_self_eq_true,
        Bool.not_true, Bool.false_eq_true, if_false, settingsValue,
        List.lookup, hbe2]
      exact ih
    · have hbe : (ka == k) = false := beq_eq_false_iff_ne.mpr hk
      simp only [settingsRemove, List.filter_cons, hbe, Bool.not_false, if_true,
        settingsValue, List.lookup]
      cases hka : (k1 == ka) with
      | true => rfl
      | false => exact ih

/-- C2: whenever `ExtractResult` processes a reply with HTTP status 401,
`Logout` is invoked, after which the in-memory access token and user id
are empty, quality is NONE, the persisted keys access_token, user_id and
quality are removed, and `IsLoggedIn` returns false. -/
theorem qobuz_c2_unauthorized_clears_credentials
    (evs1 : List TasksChangedEvent) (evs2 : List Int) (reply : Reply)
    (s s1 : ServiceState) (result : QVariantMap) (sigs : List Signal)
    (h401 : reply.status = UNAUTHORIZED)
    (h : ExtractResult evs1 evs2 reply s = some (s1, result, sigs)) :
    Logout evs1 evs2 s = some s1 ∧
    s1.access_token = "" ∧
    s1.user_id = "" ∧
    s1.quality = QualityNONE ∧
    settingsValue s1.settings "access_token" = none ∧
    settingsValue s1.settings "user_id" = none ∧
    settingsValue s1.settings "quality" = none ∧
    IsLoggedIn s1 = false := by
  unfold ExtractResult at h
  rw [h401] at h
  rw [if_pos (show (UNAUTHORIZED : Int) ≠ NO_ERROR by decide), if_pos rfl] at h
  cases hL : Logout evs1 evs2 s with
  | none => rw [hL] at h; simp at h
  | some sL =>
    rw [hL] at h
    simp only [Option.some.injEq, Prod.mk.injEq] at h
    obtain ⟨hsL, -, -⟩ := h
    subst hsL
    obtain ⟨s2, -, -, -, -, -, -, -, -, -, -, -, -, hfin⟩ :=
      logout_anatomy evs1 evs2 s sL hL
    subst hfin
    refine ⟨rfl, rfl, rfl, rfl, ?_, ?_, ?_, rfl⟩
    · show settingsValue (settingsRemove (settingsRemove (settingsRemove
        s2.settings "access_token") "user_id") "quality") "access_token" = none
      rw [settingsValue_settingsRemove_other _ _ _ (by decide),
        settingsValue_settingsRemove_other _ _ _ (by decide)]
      exact settingsValue_settingsRemove_self _ _
    · show settingsValue (settingsRemove (settingsRemove (settingsRemove
        s2.settings "access_token") "user_id") "quality") "user_id" = none
      rw [settingsValue_settingsRemove_other _ _ _ (by decide)]
      exact settingsValue_settingsRemove_self _ _
    · exact settingsValue_settingsRemove_self _ _

/-- Witness for C2: a 401 reply against the freshly constructed service
state, with no running tasks to wait for. -/
theorem qobuz_c2_witness :
    Logout [] [] {}
      = some ({ quality := QualityNONE, next_task_id := 2 } : ServiceState) ∧
    ({ quality := QualityNONE, next_task_id := 2 } : ServiceState).access_token = "" ∧
    ({ quality := QualityNONE, next_task_id := 2 } : ServiceState).user_id = "" ∧
    ({ quality := QualityNONE, next_task_id := 2 } : ServiceState).quality = QualityNONE ∧
    settingsValue ({ quality := QualityNONE, next_task_id := 2 } :
      ServiceState).settings "access_token" = none ∧
    settingsValue ({ quality := QualityNONE, next_task_id := 2 } :
      ServiceState).settings "user_id" = none ∧
    settingsValue ({ quality := QualityNONE, next_task_id := 2 } :
      ServiceState).settings "quality" = none ∧
    IsLoggedIn ({ quality := QualityNONE, next_task_id := 2 } : ServiceState) = false :=
  qobuz_c2_unauthorized_clears_credentials [] [] { status := 401, body := none }
    {} { quality := QualityNONE, next_task_id := 2 } [] [Signal.ReplyError 401]
    rfl rfl

/-- C3: `Logout` tears the session down only from an intermediate state
in which none of the four tracked tasks is in the task manager and no
playlist-retrieval request id remains pending, having polled the
`TasksChanged` and `PlaylistRetrieved` events until both conditions
cleared; until that point the credentials, settings, playlist-info maps
and tree are untouched. -/
theorem qobuz_c3_logout_waits_for_tasks (evs1 : List TasksChangedEvent)
    (evs2 : List Int) (s s1 : ServiceState)
    (h : Logout evs1 evs2 s = some s1) :
    ∃ s2 : ServiceState,
      trackedTaskRunning s2 = false ∧
      s2.pending_retrieve_playlists = [] ∧
      s2.access_token = s.access_token ∧
      s2.user_id = s.user_id ∧
      s2.settings = s.settings ∧
      s2.featured_playlists_info = s.featured_playlists_info ∧
      s2.user_playlists_info = s.user_playlists_info ∧
      s2.root_rows = s.root_rows ∧
      s1 = setTaskFinished s.next_task_id (clearSession s2) := by
  obtain ⟨s2, h1, h2, h3, h4, h5, h6, h7, h8, -, -, -, -, hfin⟩ :=
    logout_anatomy evs1 evs2 s s1 h
  exact ⟨s2, h1, h2, h3, h4, h5, h6, h7, h8, hfin⟩

/-- Witness for C3: a logout from the freshly constructed state, whose
waits pass immediately. -/
theorem qobuz_c3_witness :
    ∃ s2 : ServiceState,
      trackedTaskRunning s2 = false ∧
      s2.pending_retrieve_playlists = [] ∧
      s2.access_token = ({} : ServiceState).access_token ∧
      s2.user_id = ({} : ServiceState).user_id ∧
      s2.settings = ({} : ServiceState).settings ∧
      s2.featured_playlists_info = ({} : ServiceState).featured_playlists_info ∧
      s2.user_playlists_info = ({} : ServiceState).user_playlists_info ∧
      s2.root_rows = ({} : ServiceState).root_rows ∧
      ({ quality := QualityNONE, next_task_id := 2 } : ServiceState)
        = setTaskFinished ({} : ServiceState).next_task_id (clearSession s2) :=
  qobuz_c3_logout_waits_for_tasks [] [] {}
    { quality := QualityNONE, next_task_id := 2 } rfl

theorem mem_of_mem_removeNodeRow (node : Option Nat) (rows : List Nat)
    (n : Nat) (h : n ∈ removeNodeRow node rows) : n ∈ rows := by
  cases node with
  | none => exact h
  | some a => exact List.mem_of_mem_erase h

theorem nodup_removeNodeRow (node : Option Nat) (rows : List Nat)
    (h : rows.Nodup) : (removeNodeRow node rows).Nodup := by
  cases node with
  | none => exact h
  | some a => exact h.erase a

theorem not_mem_removeNodeRow_self (rows : List Nat) (n : Nat)
    (h : rows.Nodup) : n ∉ removeNodeRow (some n) rows := by
  intro hm
  exact ((h.mem_erase_iff).1 hm).1 rfl

theorem clearSession_node_removed (s : ServiceState)
    (hnd : s.root_rows.Nodup) (n : Nat)
    (hn : s.featured_playlists_node = some n ∨
      s.user_favorites_node = some n ∨
      s.user_playlists_node = some n ∨
      s.search_node = some n) :
    n ∉ (clearSession s).root_rows := by
  show n ∉ removeNodeRow s.search_node (removeNodeRow s.user_playlists_node
    (removeNodeRow s.user_favorites_node
      (removeNodeRow s.featured_playlists_node s.root_rows)))
  have nd1 := nodup_removeNodeRow s.featured_playlists_node s.root_rows hnd
  have nd2 := nodup_removeNodeRow s.user_favorites_node _ nd1
  have nd3 := nodup_removeNodeRow s.user_playlists_node _ nd2
  rcases hn with hf | hv | hp | hs
  · have h1 : n ∉ removeNodeRow s.featured_playlists_node s.root_rows := by
      rw [hf]; exact not_mem_removeNodeRow_self _ _ hnd
    exact fun hm => h1 (mem_of_mem_removeNodeRow _ _ _
      (mem_of_mem_removeNodeRow _ _ _ (mem_of_mem_removeNodeRow _ _ _ hm)))
  · have h1 : n ∉ removeNodeRow s.user_favorites_node
        (removeNodeRow s.featured_playlists_node s.root_rows) := by
      rw [hv]; exact not_mem_removeNodeRow_self _ _ nd1
    exact fun hm => h1 (mem_of_mem_removeNodeRow _ _ _
      (mem_of_mem_removeNodeRow _ _ _ hm))
  · have h1 : n ∉ removeNodeRow s.user_playlists_node
        (removeNodeRow s.user_favorites_node
          (removeNodeRow s.featured_playlists_node s.root_rows)) := by
      rw [hp]; exact not_mem_removeNodeRow_self _ _ nd2
    exact fun hm => h1 (mem_of_mem_removeNodeRow _ _ _ hm)
  · rw [hs]; exact not_mem_removeNodeRow_self _ _ nd3

theorem search_empty_no_request (now : Bool) (t : ServiceState) :
    (Search "" now t).2 = none ∧
    (t.search_node.isSome = true → (Search "" now t).1.search_rows = []) := by
  have he : "".isEmpty = true := rfl
  unfold Search ClearSearchResults
  cases h0 : t.task_search_id == 0 <;>
    cases hsn : t.search_node <;>
      simp [h0, hsn, startTask, he]

/-- C6: after a completed `Logout`, both playlist-info maps are empty,
the pending search string is empty, and the search, favorites,
featured-playlists and user-playlists tree nodes have been removed from
the root; and `Search` on empty text clears the search-results rows
without issuing a network request. -/
theorem qobuz_c6_records_destroyed (evs1 : List TasksChangedEvent)
    (evs2 : List Int) (s s1 : ServiceState)
    (h : Logout evs1 evs2 s = some s1) (hnd : s.root_rows.Nodup) :
    s1.featured_playlists_info = [] ∧
    s1.user_playlists_info = [] ∧
    s1.pending_search = "" ∧
    (∀ n, s.search_node = some n → n ∉ s1.root_rows) ∧
    (∀ n, s.user_favorites_node = some n → n ∉ s1.root_rows) ∧
    (∀ n, s.featured_playlists_node = some n → n ∉ s1.root_rows) ∧
    (∀ n, s.user_playlists_node = some n → n ∉ s1.root_rows) ∧
    (∀ (now : Bool) (t : ServiceState),
      (Search "" now t).2 = none ∧
      (t.search_node.isSome = true → (Search "" now t).1.search_rows = [])) := by
  obtain ⟨s2, -, -, -, -, -, -, -, hroot, hsn, hfav, hup, hfeat, hfin⟩ :=
    logout_anatomy evs1 evs2 s s1 h
  have hnd2 : s2.root_rows.Nodup := by rw [hroot]; exact hnd
  subst hfin
  refine ⟨rfl, rfl, rfl, ?_, ?_, ?_, ?_, fun now t => search_empty_no_request now t⟩
  · intro n hn
    exact clearSession_node_removed s2 hnd2 n
      (Or.inr (Or.inr (Or.inr (hsn.trans hn))))
  · intro n hn
    exact clearSession_node_removed s2 hnd2 n (Or.inr (Or.inl (hfav.trans hn)))
  · intro n hn
    exact clearSession_node_removed s2 hnd2 n (Or.inl (hfeat.trans hn))
  · intro n hn
    exact clearSession_node_removed s2 hnd2 n
      (Or.inr (Or.inr (Or.inl (hup.trans hn))))

/-- Witness for C6: the completed logout from the freshly constructed
state, whose root has no duplicate rows. -/
theorem qobuz_c6_witness :
    ({ quality := QualityNONE, next_task_id := 2 } :
      ServiceState).featured_playlists_info = [] ∧
    ({ quality := QualityNONE, next_task_id := 2 } :
      ServiceState).user_playlists_info = [] ∧
    ({ quality := QualityNONE, next_task_id := 2 } :
      ServiceState).pending_search = "" ∧
    (∀ n, ({} : ServiceState).search_node = some n →
      n ∉ ({ quality := QualityNONE, next_task_id := 2 } : ServiceState).root_rows) ∧
    (∀ n, ({} : ServiceState).user_favorites_node = some n →
      n ∉ ({ quality := QualityNONE, next_task_id := 2 } : ServiceState).root_rows) ∧
    (∀ n, ({} : ServiceState).featured_playlists_node = some n →
      n ∉ ({ quality := QualityNONE, next_task_id := 2 } : ServiceState).root_rows) ∧
    (∀ n, ({} : ServiceState).user_playlists_node = some n →
      n ∉ ({ quality := QualityNONE, next_task_id := 2 } : ServiceState).root_rows) ∧
    (∀ (now : Bool) (t : ServiceState),
      (Search "" now t).2 = none ∧
      (t.search_node.isSome = true → (Search "" now t).1.search_rows = [])) :=
  qobuz_c6_records_destroyed [] [] {}
    { quality := QualityNONE, next_task_id := 2 } rfl List.nodup_nil

end Qobuz
